import Mathlib

/-!
Shallow embedding of the indicam-hacs integration core
(`custom_components/indicam/indicator_processors.py`,
`custom_components/indicam/sensor.py`, `custom_components/indicam/const.py`).

Python floats are modelled as `Rat`, Python ints as `Nat`/`Int`, fallible
values as `Option`, raised exceptions as an explicit `Option` error component
that propagates, and the remote-service client as an oracle supplying the
result of each call.  Side-effecting calls (service requests, sleeps, file
writes) are recorded in explicit event traces so that theorems can speak
about which calls a run performs and in which order.
-/

namespace Indicam

/-! ## Constants (`const.py`) -/

/-- `FLASH_DELAY_SECONDS = 60` -/
def FLASH_DELAY_SECONDS : Nat := 60

/-- `MEASUREMENT_PROCESS_DELAYS = [1, 5, 25, 60, 90]` -/
def MEASUREMENT_PROCESS_DELAYS : List Nat := [1, 5, 25, 60, 90]

/-- `IMAGE_GET_RETRIES = 3` -/
def IMAGE_GET_RETRIES : Nat := 3

/-- `GRAB_TIMEOUT = 10` -/
def GRAB_TIMEOUT : Nat := 10

/-! ## Data model (`api_client.py` dataclasses of the `indicam_client` package) -/

/-- `CamConfig`: dataclass with two float fields; dataclasses compare by
value equality, which `DecidableEq` mirrors. -/
structure CamConfig where
  min_perc : Rat
  max_perc : Rat
deriving DecidableEq, Repr

/-- `GaugeMeasurement`: pixel landmarks plus the normalised reading.
`value` is a Python float (`0.0` is falsy, which several branches test). -/
structure GaugeMeasurement where
  body_left : Int
  body_right : Int
  body_top : Int
  body_bottom : Int
  float_top : Int
  value : Rat
deriving DecidableEq, Repr

/-- Raw image bytes. -/
def Bytes := List Nat
deriving DecidableEq

/-- Python truthiness of a `bytes` object held in an `Optional`: `None` and
the empty byte string are falsy. -/
def bytesFalsy : Option Bytes → Bool
  | none => true
  | some b => b.isEmpty

/-- Python truthiness of an `int | None`: `None` and `0` are falsy
(`if not image_id`, `if not self._indicam_id`). -/
def natOptFalsy : Option Nat → Bool
  | none => true
  | some n => n == 0

/-! ## The remote-service oracle

One call per method of `IndiCamServiceClient` as consumed by the processor.
`measurement_ready` may answer differently on successive polls, so it takes
the index of the readiness check within the run as an extra argument. -/

structure Api where
  get_indicam_id : Option Nat
  get_camconfig : Option Nat → Option CamConfig
  create_camconfig : Option Nat → CamConfig → Bool
  upload_image : Option Nat
  measurement_ready : Nat → Nat → Bool
  get_measurement : Nat → Option GaugeMeasurement

/-- Service calls and suspension points performed by
`VerticalFloatProcessor`, in execution order. -/
inductive Event
  | getIndicamId
  | getCamconfig (id : Option Nat)
  | createCamconfig (id : Option Nat) (cfg : CamConfig)
  | uploadImage
  | measurementReady (imageId : Nat) (result : Bool)
  | sleep (delay : Nat)
  | getMeasurement (imageId : Nat)
deriving DecidableEq, Repr

/-- `HausNetServiceError`, the exception `_update_cam_config` raises. -/
inductive HausNetError
  | serviceError
deriving DecidableEq, Repr

/-! ## `VerticalFloatProcessor` state and operations -/

/-- The mutable fields of a `VerticalFloatProcessor` instance. -/
structure ProcState where
  cam_config : CamConfig
  updated_cam_config : Bool
  indicam_id : Option Nat
deriving DecidableEq, Repr

/-- `_get_indicam_id`: resolve and cache the remote id on first (truthy)
use; `if not self._indicam_id` re-resolves while the cache is `None` or `0`.
Returns the id handed to the caller, the updated state, and the trace. -/
def get_indicam_id_step (api : Api) (s : ProcState) :
    Option Nat × ProcState × List Event :=
  if natOptFalsy s.indicam_id then
    (api.get_indicam_id, { s with indicam_id := api.get_indicam_id },
      [Event.getIndicamId])
  else
    (s.indicam_id, s, [])

/-- `_update_cam_config`: sync the local camera configuration to the service
once.  The `_LOGGER.debug` line evaluates `await self._get_indicam_id()`
eagerly, so it is a call site like the others.  Returns the updated state,
the trace, and the raised exception if any (state changes made before a
`raise` persist). -/
def update_cam_config (api : Api) (s : ProcState) :
    ProcState × List Event × Option HausNetError :=
  if s.updated_cam_config then
    (s, [], none)
  else
    let r₁ := get_indicam_id_step api s
    let r₂ := get_indicam_id_step api r₁.2.1
    let t := r₁.2.2 ++ r₂.2.2 ++ [Event.getCamconfig r₂.1]
    match api.get_camconfig r₂.1 with
    | none => (r₂.2.1, t, some HausNetError.serviceError)
    | some svc_cfg =>
      if svc_cfg = s.cam_config then
        ({ r₂.2.1 with updated_cam_config := true }, t, none)
      else
        let r₃ := get_indicam_id_step api r₂.2.1
        let t' := t ++ r₃.2.2 ++ [Event.createCamconfig r₃.1 s.cam_config]
        if api.create_camconfig r₃.1 s.cam_config then
          ({ r₃.2.1 with updated_cam_config := true }, t', none)
        else
          (r₃.2.1, t', some HausNetError.serviceError)

/-- The `for delay in MEASUREMENT_PROCESS_DELAYS` loop of `process_img`:
before each wait, check readiness; when not ready, sleep for the schedule
entry and continue; on the first ready signal fetch the measurement and
either return it or break.  `k` counts the readiness checks made so far. -/
def pollLoop (api : Api) (imageId : Nat) :
    List Nat → Nat → List Event × Option GaugeMeasurement
  | [], _ => ([], none)
  | delay :: rest, k =>
    if api.measurement_ready imageId k then
      match api.get_measurement imageId with
      | none =>
        ([Event.measurementReady imageId true, Event.getMeasurement imageId],
          none)
      | some m =>
        ([Event.measurementReady imageId true, Event.getMeasurement imageId],
          some m)
    else
      let r := pollLoop api imageId rest (k + 1)
      (Event.measurementReady imageId false :: Event.sleep delay :: r.1, r.2)

/-- `process_img`: lazily sync the camera config, upload the image, then
poll for the measurement on the fixed schedule.  The elapsed wall-clock
time the Python code pairs with each outcome is real time and is not
modelled; the returned components are the measurement, the updated state,
the event trace, and a propagated `HausNetServiceError` if the sync step
raised one. -/
def process_img (api : Api) (s : ProcState) :
    Option GaugeMeasurement × ProcState × List Event × Option HausNetError :=
  let sync :=
    if ¬ s.updated_cam_config then update_cam_config api s else (s, [], none)
  match sync.2.2 with
  | some e => (none, sync.1, sync.2.1, some e)
  | none =>
    let t := sync.2.1 ++ [Event.uploadImage]
    if natOptFalsy api.upload_image then
      (none, sync.1, t, none)
    else
      match api.upload_image with
      | none => (none, sync.1, t, none)
      | some imageId =>
        let r := pollLoop api imageId MEASUREMENT_PROCESS_DELAYS 0
        (r.2, sync.1, t ++ r.1, none)

/-! ## Trace observations -/

/-- The sleeps a trace performs, in order. -/
def sleeps (t : List Event) : List Nat :=
  t.filterMap fun e =>
    match e with
    | Event.sleep d => some d
    | _ => none

/-- Whether an event is a readiness check. -/
def isReadyCheck : Event → Bool
  | Event.measurementReady _ _ => true
  | _ => false

/-- Whether an event is a camera-configuration service call
(`get_camconfig` or `create_camconfig`). -/
def isConfigCall : Event → Bool
  | Event.getCamconfig _ => true
  | Event.createCamconfig _ _ => true
  | _ => false

/-- Whether an event is a `create_camconfig` (remote write) call. -/
def isCreateCall : Event → Bool
  | Event.createCamconfig _ _ => true
  | _ => false

/-! ## `VerticalFloatDecorator` (`indicator_processors.py`)

The output directory is modelled as a map from path strings to file
contents.  `decorate_image` opens the captured bytes and draws the body
box, scale ticks, min/max lines and float line on it (`_draw_body`,
`_draw_scale`, `_draw_min_max`, `_draw_float_line`); it is a deterministic
function of exactly the image bytes, the measurement and the camera
configuration, and no claim depends on the pixel geometry, so the rendered
copy is modelled as the record of those three inputs. -/

/-- The deterministic result of `decorate_image(image, result, cam_config)`. -/
structure DecoratedImage where
  source : Bytes
  msr : GaugeMeasurement
  cfg : CamConfig
deriving DecidableEq

/-- `decorate_image`: render the overlay onto a copy of the image. -/
def decorate_image (image : Bytes) (result : GaugeMeasurement)
    (cam_config : CamConfig) : DecoratedImage :=
  { source := image, msr := result, cfg := cam_config }

/-- Contents of a file in the output directory: either raw bytes written
from a `bytes` buffer, or a JPEG written by `Image.save(buffer, "JPEG")`. -/
inductive FileData
  | raw (data : Bytes)
  | jpeg (img : DecoratedImage)
deriving DecidableEq

/-- The output directory: each path maps to its contents, if present. -/
def FS := String → Option FileData

/-- The argument of `save_image`: `Image.Image | bytes | None`. -/
inductive ImageArg
  | bytesArg (b : Bytes)
  | pilImage (img : DecoratedImage)
deriving DecidableEq

/-- Exceptions `save_image` can raise. -/
inductive PyError
  | fileNotFoundError
  | attributeError
deriving DecidableEq, Repr

/-- Python truthiness of a `str | None`: `None` and the empty string are
falsy. -/
def strOptFalsy : Option String → Bool
  | none => true
  | some s => s.isEmpty

/-- `VerticalFloatDecorator.save_image`.  Mirrors the source line by line:
`makedirs(..., exist_ok=True)` (directories are implicit in this model);
`if image is None: await aiofiles.os.remove(path)` — `os.remove` raises
`FileNotFoundError` when the path does not exist, and the branch has no
`return`, so control falls through to the buffer construction where
`image.save(buffer, "JPEG")` on `None` raises `AttributeError`.  The
returned state is the directory at the point the call finished or raised,
paired with the raised exception if any. -/
def save_image (image : Option ImageArg) (path : String) (fs : FS) :
    FS × Option PyError :=
  match image with
  | none =>
    match fs path with
    | none => (fs, some PyError.fileNotFoundError)
    | some _ =>
      (fun p => if p = path then none else fs p, some PyError.attributeError)
  | some (ImageArg.bytesArg b) =>
    (fun p => if p = path then some (FileData.raw b) else fs p, none)
  | some (ImageArg.pilImage i) =>
    (fun p => if p = path then some (FileData.jpeg i) else fs p, none)

/-- `VerticalFloatDecorator.decorate_and_save`: no-op when no output path
is configured, otherwise save the snapshot, then either delete the measure
file (`result` falsy) or save the decorated image there.  Exceptions from
`save_image` propagate. -/
def decorate_and_save (file_path : Option String) ( file_prefix : String)
    (image : Bytes) (result : Option GaugeMeasurement)
    (cam_config : CamConfig) (fs : FS) : FS × Option PyError :=
  if strOptFalsy file_path then
    (fs, none)
  else
    let base := file_path.getD ""
    let snap_file_path := base ++ "/" ++ file_prefix ++ "-snapshot.jpg"
    let r₁ := save_image (some (ImageArg.bytesArg image)) snap_file_path fs
    match r₁.2 with
    | some e => (r₁.1, some e)
    | none =>
      let msr_file_path := base ++ "/" ++ file_prefix ++ "-measure.jpg"
      match result with
      | none => save_image none msr_file_path r₁.1
      | some r =>
        save_image (some (ImageArg.pilImage (decorate_image image r cam_config)))
          msr_file_path r₁.1

/-! ## `ImageGrabber` (`indicator_processors.py`)

Oracles: `flashState t` is what `hass.states.get(flash_entity_id)` reports
after `t` seconds of waiting (`none` when the entity has no state), and
`capture k` is the result of the `k`-th `camera.async_get_image` call
(`none` when it raises a `HomeAssistantError`, which the loop catches). -/

/-- `homeassistant.const.STATE_ON`. -/
def STATE_ON : String := "on"

/-- Externally visible steps `ImageGrabber` performs. -/
inductive GrabEvent
  | serviceTurnOn
  | serviceTurnOff
  | captureAttempt (count : Nat) (timeout : Nat)
deriving DecidableEq, Repr

/-- The `while wait_seconds < FLASH_DELAY_SECONDS` loop of
`_turn_flash_on`.  Returns `none` when `states.get` yields no state (the
early `return False`), otherwise `some w` where `w` is the value of
`wait_seconds` when the loop exits (by `break` on the on-state or by the
loop condition failing). -/
def flashWaitLoop (flashState : Nat → Option String) (wait_seconds : Nat) :
    Option Nat :=
  if _h : wait_seconds < FLASH_DELAY_SECONDS then
    match flashState wait_seconds with
    | none => none
    | some st =>
      if st = STATE_ON then some wait_seconds
      else flashWaitLoop flashState (wait_seconds + 1)
  else some wait_seconds
termination_by FLASH_DELAY_SECONDS - wait_seconds

/-- `ImageGrabber._turn_flash_on`: no-op without a flash entity; otherwise
issue the switch service call, and when turning on, wait for the reported
on-state.  After the wait loop, `if wait_seconds > FLASH_DELAY_SECONDS`
selects the "flash did not turn on" error path. -/
def turn_flash_on (flash_entity : Option String)
    (flashState : Nat → Option String) (turningOn : Bool) :
    List GrabEvent × Bool :=
  if strOptFalsy flash_entity then ([], true)
  else
    let t :=
      [if turningOn then GrabEvent.serviceTurnOn else GrabEvent.serviceTurnOff]
    if ¬ turningOn then (t, true)
    else
      match flashWaitLoop flashState 0 with
      | none => (t, false)
      | some wait_seconds =>
        if wait_seconds > FLASH_DELAY_SECONDS then (t, false)
        else (t, true)

/-- The `while get_count <= IMAGE_GET_RETRIES` loop of `grab_image`: every
iteration attempts a capture with timeout `GRAB_TIMEOUT`; a raised error is
caught (a warning is logged) and the loop continues; a successful call
overwrites `camera_image`; the counter always advances — there is no early
exit on success. -/
def grabLoop (capture : Nat → Option Bytes) (get_count : Nat)
    (camera_image : Option Bytes) : List GrabEvent × Option Bytes :=
  if h : get_count ≤ IMAGE_GET_RETRIES then
    let img :=
      match capture get_count with
      | some b => some b
      | none => camera_image
    let r := grabLoop capture (get_count + 1) img
    (GrabEvent.captureAttempt get_count GRAB_TIMEOUT :: r.1, r.2)
  else ([], camera_image)
termination_by IMAGE_GET_RETRIES + 1 - get_count

/-- `ImageGrabber.grab_image`: abort when no camera entity id was set
(`is None` check); otherwise turn the flash on, run the capture loop, turn
the flash off, and return the captured content if any.  The `Bool` results
of the two `_turn_flash_on` calls are discarded. -/
def grab_image (camera_entity : Option String) (flash_entity : Option String)
    (flashState : Nat → Option String) (capture : Nat → Option Bytes) :
    List GrabEvent × Option Bytes :=
  match camera_entity with
  | none => ([], none)
  | some _ =>
    let fOn := turn_flash_on flash_entity flashState true
    let r := grabLoop capture 1 none
    let fOff := turn_flash_on flash_entity flashState false
    let t := fOn.1 ++ r.1 ++ fOff.1
    match r.2 with
    | none => (t, none)
    | some content => (t, some content)

/-- The capture attempts a grab trace performs, in order. -/
def captureAttempts (t : List GrabEvent) : List (Nat × Nat) :=
  t.filterMap fun e =>
    match e with
    | GrabEvent.captureAttempt k tmo => some (k, tmo)
    | _ => none

/-! ## `IndiCamSensorEntity` (`sensor.py`) -/

/-- The measurement-holding state of the sensor entity
(`self._last_result`), `none` until the first successful cycle. -/
structure SensorState where
  last_result : Option GaugeMeasurement
deriving DecidableEq

/-- `round(x, 1)` applied to a rational.  Python rounds ties to even while
`round` on `Rat` rounds ties up; no claim evaluates a tie, and the claims
compare displayed values only across equal states. -/
def round1 (q : Rat) : Rat := (round (q * 10) : Int) / 10

/-- `IndiCamSensorEntity.native_value`: `None` before any measurement,
otherwise the reading scaled to a percentage with one decimal. -/
def native_value (s : SensorState) : Option Rat :=
  match s.last_result with
  | none => none
  | some m => some (round1 (m.value * 100))

/-- `failed = not measurement or not measurement.value`: a missing
measurement, or a reading whose float `value` is `0.0` (falsy), fails the
cycle. -/
def measurementFalsy : Option GaugeMeasurement → Bool
  | none => true
  | some m => m.value == 0

/-- `IndiCamSensorEntity.async_update`, given the grab result and the
measurement `process_img` produced: keep the previous state when no image
was captured or the measurement is unusable, otherwise store the
measurement and invoke the decorator.  The `Bool` records whether
`decorate_and_save` was invoked for this cycle. -/
def async_update (image : Option Bytes) (measurement : Option GaugeMeasurement)
    (s : SensorState) : SensorState × Bool :=
  if bytesFalsy image then (s, false)
  else if measurementFalsy measurement then (s, false)
  else ({ last_result := measurement }, true)

/-! ## Helper lemmas -/

/-- The id-resolution step performs no sleeps, readiness checks,
measurement fetches or config calls. -/
lemma get_indicam_id_step_trace (api : Api) (s : ProcState) :
    sleeps (get_indicam_id_step api s).2.2 = [] ∧
    (get_indicam_id_step api s).2.2.countP isReadyCheck = 0 ∧
    (get_indicam_id_step api s).2.2.countP isCreateCall = 0 ∧
    Event.getMeasurement 0 ∉ (get_indicam_id_step api s).2.2 := by
  unfold get_indicam_id_step
  split <;> simp [sleeps, isReadyCheck, isCreateCall, List.countP_cons]

/-- `sleeps` distributes over trace concatenation. -/
lemma sleeps_append (a b : List Event) :
    sleeps (a ++ b) = sleeps a ++ sleeps b := by
  simp [sleeps]

/-- The config-sync step performs no sleeps and no readiness checks, and
never ends in a measurement fetch. -/
lemma update_cam_config_trace (api : Api) (s : ProcState) :
    sleeps (update_cam_config api s).2.1 = [] ∧
    (update_cam_config api s).2.1.countP isReadyCheck = 0 := by
  obtain ⟨h1, h2, -⟩ := get_indicam_id_step_trace api s
  obtain ⟨h3, h4, -⟩ :=
    get_indicam_id_step_trace api (get_indicam_id_step api s).2.1
  obtain ⟨h5, h6, -⟩ := get_indicam_id_step_trace api
    (get_indicam_id_step api (get_indicam_id_step api s).2.1).2.1
  simp only [update_cam_config]
  split
  · simp [sleeps]
  · split
    · refine ⟨?_, ?_⟩
      · rw [sleeps_append, sleeps_append, h1, h3]; rfl
      · rw [List.countP_append, List.countP_append, h2, h4]; rfl
    · split
      · refine ⟨?_, ?_⟩
        · rw [sleeps_append, sleeps_append, h1, h3]; rfl
        · rw [List.countP_append, List.countP_append, h2, h4]; rfl
      · split <;> refine ⟨?_, ?_⟩ <;>
          first
          | (rw [sleeps_append, sleeps_append, sleeps_append, sleeps_append,
              h1, h3, h5]; rfl)
          | (rw [List.countP_append, List.countP_append, List.countP_append,
              List.countP_append, h2, h4, h6]; rfl)

/-- Poll-loop behaviour when the first ready signal comes at check `i`
(counting from `k`): the sleeps consumed are exactly the first `i` schedule
entries in order, exactly `i + 1` readiness checks happen, the trace ends
in the measurement fetch, and the fetched measurement is the result. -/
lemma pollLoop_first_ready (api : Api) (imageId : Nat) :
    ∀ (i : Nat) (ds : List Nat) (k : Nat),
    (∀ j, j < i → api.measurement_ready imageId (k + j) = false) →
    api.measurement_ready imageId (k + i) = true →
    i < ds.length →
    sleeps (pollLoop api imageId ds k).1 = ds.take i ∧
    (pollLoop api imageId ds k).1.countP isReadyCheck = i + 1 ∧
    (pollLoop api imageId ds k).1.getLast? =
      some (Event.getMeasurement imageId) ∧
    (pollLoop api imageId ds k).2 = api.get_measurement imageId := by
  intro i
  induction i with
  | zero =>
    intro ds k _ hready hlen
    match ds with
    | d :: rest =>
      simp only [Nat.add_zero] at hready
      unfold pollLoop
      rw [hready]
      cases h : api.get_measurement imageId <;>
        simp [h, sleeps, isReadyCheck, List.countP_cons]
  | succ i ih =>
    intro ds k hmin hready hlen
    match ds with
    | d :: rest =>
      have h0 : api.measurement_ready imageId k = false := by
        have := hmin 0 (Nat.succ_pos i)
        simpa using this
      have hrec := ih rest (k + 1)
        (fun j hj => by
          have := hmin (j + 1) (by omega)
          simpa [Nat.add_assoc, Nat.add_comm 1 j] using this)
        (by
          have : k + 1 + i = k + (i + 1) := by omega
          rw [this]; exact hready)
        (by simpa using Nat.lt_of_succ_lt_succ (Nat.succ_lt_succ hlen))
      unfold pollLoop
      rw [h0]
      simp only [Bool.false_eq_true, if_false]
      refine ⟨?_, ?_, ?_, hrec.2.2.2⟩
      · simp [sleeps, List.filterMap_cons, isReadyCheck] at hrec ⊢
        exact hrec.1
      · simp [List.countP_cons, isReadyCheck, hrec.2.1]
      · rw [show Event.measurementReady imageId false ::
            Event.sleep d :: (pollLoop api imageId rest (k + 1)).1 =
            [Event.measurementReady imageId false, Event.sleep d] ++
            (pollLoop api imageId rest (k + 1)).1 from rfl]
        rw [List.getLast?_append_of_ne_nil]
        · exact hrec.2.2.1
        · intro hnil
          rw [hnil] at hrec
          simpa using hrec.2.2.1

/-- Poll-loop behaviour when readiness is never signalled: one readiness
check per schedule entry, every scheduled sleep is performed, and no
measurement is produced. -/
lemma pollLoop_never_ready (api : Api) (imageId : Nat) :
    ∀ (ds : List Nat) (k : Nat),
    (∀ j, j < ds.length → api.measurement_ready imageId (k + j) = false) →
    sleeps (pollLoop api imageId ds k).1 = ds ∧
    (pollLoop api imageId ds k).1.countP isReadyCheck = ds.length ∧
    (pollLoop api imageId ds k).2 = none := by
  intro ds
  induction ds with
  | nil => intro k _; simp [pollLoop, sleeps]
  | cons d rest ih =>
    intro k hmin
    have h0 : api.measurement_ready imageId k = false := by
      have := hmin 0 (by simp)
      simpa using this
    have hrec := ih (k + 1) (fun j hj => by
      have := hmin (j + 1) (by simpa using Nat.succ_lt_succ hj)
      simpa [Nat.add_assoc, Nat.add_comm 1 j] using this)
    unfold pollLoop
    rw [h0]
    simp only [Bool.false_eq_true, if_false]
    refine ⟨?_, ?_, hrec.2.2⟩
    · simp [sleeps, List.filterMap_cons, isReadyCheck] at hrec ⊢
      exact hrec.1
    · simp [List.countP_cons, isReadyCheck, hrec.2.1]

/-- When `process_img` raises no service error and the upload yields a
truthy image id, its trace decomposes into a sync prefix without sleeps or
readiness checks, the upload, and the poll-loop trace; its measurement is
the poll-loop result. -/
lemma process_img_decomp (api : Api) (s : ProcState) (n : Nat)
    (herr : (process_img api s).2.2.2 = none)
    (hup : api.upload_image = some n) (hn : n ≠ 0) :
    ∃ ts, (process_img api s).2.2.1 =
        ts ++ [Event.uploadImage] ++ (pollLoop api n MEASUREMENT_PROCESS_DELAYS 0).1 ∧
      sleeps ts = [] ∧ ts.countP isReadyCheck = 0 ∧
      (process_img api s).1 = (pollLoop api n MEASUREMENT_PROCESS_DELAYS 0).2 := by
  by_cases hf : s.updated_cam_config
  · refine ⟨[], ?_, by simp [sleeps], by simp, ?_⟩ <;>
      simp [process_img, hf, hup, natOptFalsy, hn]
  · match hu : (update_cam_config api s).2.2 with
    | some e =>
      exfalso
      simp [process_img, hf, hu] at herr
    | none =>
      refine ⟨(update_cam_config api s).2.1, ?_,
        (update_cam_config_trace api s).1,
        (update_cam_config_trace api s).2, ?_⟩ <;>
        simp [process_img, hf, hu, hup, natOptFalsy, hn]

/-! ## Claims about the measurement poller -/

/-- C1: in every `process_img` run in which the upload returns an image id
and readiness first reports true on check `i` (within the schedule), the
sleeps performed are exactly the first `i` entries of
`MEASUREMENT_PROCESS_DELAYS = [1, 5, 25, 60, 90]` in order, exactly
`i + 1` readiness checks happen (one before each wait and the final ready
one), the run ends with the measurement fetch — no sleeps or checks follow
it — and the fetched measurement is the result. -/
theorem C1_poll_schedule_stops_on_first_ready
    (api : Api) (s : ProcState) (n i : Nat)
    (herr : (process_img api s).2.2.2 = none)
    (hup : api.upload_image = some n) (hn : n ≠ 0)
    (hi : i < 5)
    (hmin : ∀ j, j < i → api.measurement_ready n j = false)
    (hready : api.measurement_ready n i = true) :
    sleeps (process_img api s).2.2.1 = MEASUREMENT_PROCESS_DELAYS.take i ∧
    (process_img api s).2.2.1.countP isReadyCheck = i + 1 ∧
    (process_img api s).2.2.1.getLast? = some (Event.getMeasurement n) ∧
    (process_img api s).1 = api.get_measurement n := by
  obtain ⟨ts, htr, hsl, hct, hres⟩ := process_img_decomp api s n herr hup hn
  have hpoll := pollLoop_first_ready api n i MEASUREMENT_PROCESS_DELAYS 0
    (fun j hj => by simpa using hmin j hj)
    (by simpa using hready)
    (by simpa [MEASUREMENT_PROCESS_DELAYS] using hi)
  refine ⟨?_, ?_, ?_, ?_⟩
  · rw [htr, sleeps_append, sleeps_append, hsl, hpoll.1]
    rfl
  · rw [htr, List.countP_append, List.countP_append, hct, hpoll.2.1]
    simp [isReadyCheck]
  · rw [htr, List.getLast?_append_of_ne_nil, hpoll.2.2.1]
    intro hnil
    rw [hnil] at hpoll
    simpa using hpoll.2.2.1
  · rw [hres, hpoll.2.2.2]

/-- A service oracle whose readiness first answers true on the third
check. -/
def apiReadyAtTwo : Api where
  get_indicam_id := some 7
  get_camconfig := fun _ => some { min_perc := 1/10, max_perc := 1/5 }
  create_camconfig := fun _ _ => true
  upload_image := some 3
  measurement_ready := fun _ k => k == 2
  get_measurement := fun _ =>
    some { body_left := 100, body_right := 200, body_top := 100,
           body_bottom := 500, float_top := 300, value := 1/2 }

/-- A processor whose camera configuration is already synced. -/
def procSynced : ProcState where
  cam_config := { min_perc := 1/10, max_perc := 1/5 }
  updated_cam_config := true
  indicam_id := some 7

theorem C1_poll_schedule_stops_on_first_ready_witness :
    sleeps (process_img apiReadyAtTwo procSynced).2.2.1 =
      MEASUREMENT_PROCESS_DELAYS.take 2 ∧
    (process_img apiReadyAtTwo procSynced).2.2.1.countP isReadyCheck = 2 + 1 ∧
    (process_img apiReadyAtTwo procSynced).2.2.1.getLast? =
      some (Event.getMeasurement 3) ∧
    (process_img apiReadyAtTwo procSynced).1 =
      apiReadyAtTwo.get_measurement 3 :=
  C1_poll_schedule_stops_on_first_ready apiReadyAtTwo procSynced 3 2
    (by decide) (by decide) (by decide) (by decide)
    (fun j hj => by
      simp only [apiReadyAtTwo]
      simp only [beq_eq_false_iff_ne, ne_eq]
      omega)
    (by decide)

/-- C4: in every `process_img` run in which the upload returns an image id
and no readiness check reports ready, exactly 5 readiness checks are
performed — one per schedule slot, never more — every scheduled sleep
happens, and the run times out with no measurement returned. -/
theorem C4_timeout_after_five_checks
    (api : Api) (s : ProcState) (n : Nat)
    (herr : (process_img api s).2.2.2 = none)
    (hup : api.upload_image = some n) (hn : n ≠ 0)
    (hnever : ∀ j, j < 5 → api.measurement_ready n j = false) :
    (process_img api s).2.2.1.countP isReadyCheck = 5 ∧
    sleeps (process_img api s).2.2.1 = MEASUREMENT_PROCESS_DELAYS ∧
    (process_img api s).1 = none := by
  obtain ⟨ts, htr, hsl, hct, hres⟩ := process_img_decomp api s n herr hup hn
  have hpoll := pollLoop_never_ready api n MEASUREMENT_PROCESS_DELAYS 0
    (fun j hj => by
      rw [Nat.zero_add]
      exact hnever j (by simpa [MEASUREMENT_PROCESS_DELAYS] using hj))
  refine ⟨?_, ?_, ?_⟩
  · rw [htr, List.countP_append, List.countP_append, hct, hpoll.2.1]
    rfl
  · rw [htr, sleeps_append, sleeps_append, hsl, hpoll.1]
    rfl
  · rw [hres, hpoll.2.2]

/-- A service oracle that never reports the measurement ready. -/
def apiNeverReady : Api where
  get_indicam_id := some 7
  get_camconfig := fun _ => some { min_perc := 1/10, max_perc := 1/5 }
  create_camconfig := fun _ _ => true
  upload_image := some 3
  measurement_ready := fun _ _ => false
  get_measurement := fun _ =>
    some { body_left := 100, body_right := 200, body_top := 100,
           body_bottom := 500, float_top := 300, value := 1/2 }

theorem C4_timeout_after_five_checks_witness :
    (process_img apiNeverReady procSynced).2.2.1.countP isReadyCheck = 5 ∧
    sleeps (process_img apiNeverReady procSynced).2.2.1 =
      MEASUREMENT_PROCESS_DELAYS ∧
    (process_img apiNeverReady procSynced).1 = none :=
  C4_timeout_after_five_checks apiNeverReady procSynced 3
    (by decide) (by decide) (by decide) (fun j hj => rfl)

/-! ## Claims about the configuration synchronizer -/

/-- Every event the poll loop emits is a poll event: never a config call,
never an id resolution. -/
lemma pollLoop_events (api : Api) (imageId : Nat) :
    ∀ (ds : List Nat) (k : Nat), ∀ e ∈ (pollLoop api imageId ds k).1,
      isConfigCall e = false ∧ e ≠ Event.getIndicamId := by
  intro ds
  induction ds with
  | nil => intro k e he; simp [pollLoop] at he
  | cons d rest ih =>
    intro k e he
    unfold pollLoop at he
    by_cases hr : api.measurement_ready imageId k
    · rw [hr] at he
      simp only [if_true] at he
      cases hm : api.get_measurement imageId <;> rw [hm] at he <;>
        (simp at he; rcases he with h | h <;> simp [h, isConfigCall])
    · simp only [hr, Bool.false_eq_true, if_false] at he
      simp at he
      rcases he with h | h | h
      · simp [h, isConfigCall]
      · simp [h, isConfigCall]
      · exact ih (k + 1) e h

/-- C3: when the local and remote configurations differ, the sync step
calls `create_camconfig` exactly once, with the local configuration; when
that write succeeds the synced flag is set and no error is raised; when it
fails a `HausNetServiceError` is raised and the flag stays false, so the
next cycle retries. -/
theorem C3_sync_mismatch_writes_once
    (api : Api) (s : ProcState) (remote : CamConfig)
    (hflag : s.updated_cam_config = false)
    (hget : ∀ i, api.get_camconfig i = some remote)
    (hne : remote ≠ s.cam_config) :
    (update_cam_config api s).2.1.countP isCreateCall = 1 ∧
    (∀ i cfg, Event.createCamconfig i cfg ∈ (update_cam_config api s).2.1 →
      cfg = s.cam_config ∧
      (api.create_camconfig i cfg = true →
        (update_cam_config api s).1.updated_cam_config = true ∧
        (update_cam_config api s).2.2 = none) ∧
      (api.create_camconfig i cfg = false →
        (update_cam_config api s).1.updated_cam_config = false ∧
        (update_cam_config api s).2.2 = some HausNetError.serviceError)) := by
  by_cases h₁ : natOptFalsy s.indicam_id <;>
    by_cases h₂ : natOptFalsy api.get_indicam_id <;>
    by_cases hc : api.create_camconfig
      (if natOptFalsy s.indicam_id then api.get_indicam_id else s.indicam_id)
      s.cam_config <;>
    simp_all [update_cam_config, get_indicam_id_step, hget, hne,
      isCreateCall, List.countP_cons, List.countP_append]

/-- A service oracle holding a remote configuration that differs from the
local one, whose write succeeds. -/
def apiRemoteDiffers : Api where
  get_indicam_id := some 7
  get_camconfig := fun _ => some { min_perc := 3/10, max_perc := 2/5 }
  create_camconfig := fun _ _ => true
  upload_image := some 3
  measurement_ready := fun _ _ => false
  get_measurement := fun _ => none

/-- A processor that has not yet synced its camera configuration. -/
def procUnsynced : ProcState where
  cam_config := { min_perc := 1/10, max_perc := 1/5 }
  updated_cam_config := false
  indicam_id := none

theorem C3_sync_mismatch_writes_once_witness :
    (update_cam_config apiRemoteDiffers procUnsynced).2.1.countP isCreateCall
      = 1 ∧
    (∀ i cfg, Event.createCamconfig i cfg ∈
        (update_cam_config apiRemoteDiffers procUnsynced).2.1 →
      cfg = procUnsynced.cam_config ∧
      (apiRemoteDiffers.create_camconfig i cfg = true →
        (update_cam_config apiRemoteDiffers procUnsynced).1.updated_cam_config
          = true ∧
        (update_cam_config apiRemoteDiffers procUnsynced).2.2 = none) ∧
      (apiRemoteDiffers.create_camconfig i cfg = false →
        (update_cam_config apiRemoteDiffers procUnsynced).1.updated_cam_config
          = false ∧
        (update_cam_config apiRemoteDiffers procUnsynced).2.2 =
          some HausNetError.serviceError)) :=
  C3_sync_mismatch_writes_once apiRemoteDiffers procUnsynced
    { min_perc := 3/10, max_perc := 2/5 }
    (by decide) (fun i => rfl)
    (by simp [procUnsynced, CamConfig.mk.injEq]; norm_num)

/-- C7: when the remote configuration equals the local one by value, the
sync step performs no `create_camconfig` write, marks the processor synced,
and raises no error. -/
theorem C7_sync_equal_no_write
    (api : Api) (s : ProcState)
    (hflag : s.updated_cam_config = false)
    (hget : ∀ i, api.get_camconfig i = some s.cam_config) :
    (update_cam_config api s).2.1.countP isCreateCall = 0 ∧
    (update_cam_config api s).1.updated_cam_config = true ∧
    (update_cam_config api s).2.2 = none := by
  by_cases h₁ : natOptFalsy s.indicam_id <;>
    by_cases h₂ : natOptFalsy api.get_indicam_id <;>
    simp_all [update_cam_config, get_indicam_id_step, hget,
      isCreateCall, List.countP_cons, List.countP_append]

/-- A service oracle whose remote configuration equals the local one. -/
def apiRemoteEqual : Api where
  get_indicam_id := some 7
  get_camconfig := fun _ => some { min_perc := 1/10, max_perc := 1/5 }
  create_camconfig := fun _ _ => false
  upload_image := some 3
  measurement_ready := fun _ _ => false
  get_measurement := fun _ => none

theorem C7_sync_equal_no_write_witness :
    (update_cam_config apiRemoteEqual procUnsynced).2.1.countP isCreateCall
      = 0 ∧
    (update_cam_config apiRemoteEqual procUnsynced).1.updated_cam_config
      = true ∧
    (update_cam_config apiRemoteEqual procUnsynced).2.2 = none :=
  C7_sync_equal_no_write apiRemoteEqual procUnsynced (by decide) (fun i => rfl)

/-- C9: once the synced flag is true, `process_img` leaves the processor
state untouched (the flag is never reset) and performs no `get_camconfig`,
no `create_camconfig` and no id resolution — regardless of the local
configuration held in the state, so later mutation of it changes nothing. -/
theorem C9_synced_flag_latched
    (api : Api) (s : ProcState)
    (hflag : s.updated_cam_config = true) :
    (process_img api s).2.1 = s ∧
    (process_img api s).2.2.1.countP isConfigCall = 0 ∧
    Event.getIndicamId ∉ (process_img api s).2.2.1 := by
  have hpoll := pollLoop_events api
  rcases hu : api.upload_image with _ | n
  · simp [process_img, hflag, natOptFalsy, hu, isConfigCall]
  · by_cases hz : n = 0
    · simp [process_img, hflag, natOptFalsy, hu, hz, isConfigCall]
    · simp only [process_img, hflag, not_true_eq_false, if_false, hu,
        natOptFalsy, beq_iff_eq, hz, if_false, List.nil_append]
      refine ⟨by simp, ?_, ?_⟩
      · rw [List.countP_eq_zero]
        intro e he
        rcases List.mem_cons.mp he with h | h
        · simp [h, isConfigCall]
        · simp [(hpoll n MEASUREMENT_PROCESS_DELAYS 0 e h).1]
      · intro hmem
        rcases List.mem_cons.mp hmem with h | h
        · exact absurd h (by simp)
        · exact (hpoll n MEASUREMENT_PROCESS_DELAYS 0 _ h).2 rfl

theorem C9_synced_flag_latched_witness :
    (process_img apiReadyAtTwo procSynced).2.1 = procSynced ∧
    (process_img apiReadyAtTwo procSynced).2.2.1.countP isConfigCall = 0 ∧
    Event.getIndicamId ∉ (process_img apiReadyAtTwo procSynced).2.2.1 :=
  C9_synced_flag_latched apiReadyAtTwo procSynced (by decide)

/-! ## Claims about the image grabber -/

/-- The capture loop attempts every counter value from `get_count` up to
`IMAGE_GET_RETRIES`, each with timeout `GRAB_TIMEOUT`, whatever the capture
oracle answers and whatever image is already held. -/
lemma grabLoop_attempts (capture : Nat → Option Bytes) :
    ∀ (fuel get_count : Nat), get_count + fuel = IMAGE_GET_RETRIES + 1 →
      ∀ img, captureAttempts (grabLoop capture get_count img).1 =
        (List.range' get_count fuel).map (fun j => (j, GRAB_TIMEOUT)) := by
  intro fuel
  induction fuel with
  | zero =>
    intro get_count hk img
    unfold grabLoop
    rw [dif_neg (by omega)]
    simp [captureAttempts]
  | succ fuel ih =>
    intro get_count hk img
    unfold grabLoop
    rw [dif_pos (by omega)]
    have hrec := ih (get_count + 1) (by omega)
      (match capture get_count with
        | some b => some b
        | none => img)
    simp only [captureAttempts, List.filterMap_cons] at hrec ⊢
    rw [hrec, List.range'_succ]
    simp

/-- `_turn_flash_on` performs no capture attempts. -/
lemma turn_flash_on_no_attempts (fe : Option String)
    (fs : Nat → Option String) (b : Bool) :
    captureAttempts (turn_flash_on fe fs b).1 = [] := by
  unfold turn_flash_on
  cases b <;>
    (rcases flashWaitLoop fs 0 with _ | w <;>
      split <;> simp_all [captureAttempts] <;>
      split <;> simp_all [captureAttempts])

/-- With a camera entity configured, `grab_image` makes exactly the capture
attempts numbered 1, 2, 3, each with the 10-second timeout. -/
lemma grab_image_attempts (cid : String) (fe : Option String)
    (fs : Nat → Option String) (capture : Nat → Option Bytes) :
    captureAttempts (grab_image (some cid) fe fs capture).1 =
      [(1, GRAB_TIMEOUT), (2, GRAB_TIMEOUT), (3, GRAB_TIMEOUT)] := by
  have h1 := turn_flash_on_no_attempts fe fs true
  have h2 := turn_flash_on_no_attempts fe fs false
  have h3 := grabLoop_attempts capture 3 1 (by decide) none
  simp only [grab_image, captureAttempts] at h1 h2 h3 ⊢
  split <;>
    (simp only [List.filterMap_append, h1, h2, h3]
     rfl)

/-- C5: for every capture oracle — including ones that succeed on the
first attempt — `grab_image` with a configured camera performs exactly
`IMAGE_GET_RETRIES = 3` capture attempts, counters 1, 2, 3, each with the
`GRAB_TIMEOUT = 10` second timeout: the loop keeps incrementing and keeps
attempting after a success instead of exiting early. -/
theorem C5_three_attempts_no_early_exit (cid : String) (fe : Option String)
    (fs : Nat → Option String) (capture : Nat → Option Bytes) :
    captureAttempts (grab_image (some cid) fe fs capture).1 =
      [(1, GRAB_TIMEOUT), (2, GRAB_TIMEOUT), (3, GRAB_TIMEOUT)] ∧
    IMAGE_GET_RETRIES = 3 ∧ GRAB_TIMEOUT = 10 :=
  ⟨grab_image_attempts cid fe fs capture, rfl, rfl⟩

/-- The flash wait loop, entered at a second count within the budget, can
only exit with a count within the budget: `wait_seconds` never exceeds
`FLASH_DELAY_SECONDS`. -/
lemma flashWaitLoop_le (fs : Nat → Option String) :
    ∀ (n w₀ w : Nat), FLASH_DELAY_SECONDS - w₀ ≤ n →
      w₀ ≤ FLASH_DELAY_SECONDS → flashWaitLoop fs w₀ = some w →
      w ≤ FLASH_DELAY_SECONDS := by
  intro n
  induction n with
  | zero =>
    intro w₀ w hn hw₀ heq
    have h60 : w₀ = FLASH_DELAY_SECONDS := by omega
    unfold flashWaitLoop at heq
    rw [dif_neg (by omega)] at heq
    cases heq
    omega
  | succ n ih =>
    intro w₀ w hn hw₀ heq
    unfold flashWaitLoop at heq
    by_cases h : w₀ < FLASH_DELAY_SECONDS
    · rw [dif_pos h] at heq
      cases hfs : fs w₀ with
      | none => rw [hfs] at heq; exact absurd heq (by simp)
      | some st =>
        rw [hfs] at heq
        dsimp only at heq
        by_cases hon : st = STATE_ON
        · rw [if_pos hon] at heq
          cases heq
          omega
        · rw [if_neg hon] at heq
          exact ih (w₀ + 1) w (by omega) (by omega) heq
    · rw [dif_neg h] at heq
      cases heq
      omega

/-- C8: with a flash entity configured, the value of `wait_seconds` after
the wait loop never exceeds `FLASH_DELAY_SECONDS`, so the
`wait_seconds > FLASH_DELAY_SECONDS` comparison guarding the "flash did
not turn on" error path never holds: `_turn_flash_on` returns `False` only
when the entity has no state at all — in particular it returns `True` when
the flash never reports "on" within the budget.  And for every flash-state
history, including ones where "on" is never reported, `grab_image` still
performs all three capture attempts. -/
theorem C8_flash_error_branch_unreachable (fe cid : String) (hfe : fe ≠ "")
    (fs : Nat → Option String) (capture : Nat → Option Bytes) :
    (Option.all (fun w => decide (w ≤ FLASH_DELAY_SECONDS))
      (flashWaitLoop fs 0) = true) ∧
    ((turn_flash_on (some fe) fs true).2 = false ↔ flashWaitLoop fs 0 = none) ∧
    captureAttempts (grab_image (some cid) (some fe) fs capture).1 =
      [(1, GRAB_TIMEOUT), (2, GRAB_TIMEOUT), (3, GRAB_TIMEOUT)] := by
  have hle : ∀ w, flashWaitLoop fs 0 = some w → w ≤ FLASH_DELAY_SECONDS :=
    fun w h =>
      flashWaitLoop_le fs FLASH_DELAY_SECONDS 0 w (by omega) (by omega) h
  refine ⟨?_, ?_, grab_image_attempts cid (some fe) fs capture⟩
  · cases hfl : flashWaitLoop fs 0 with
    | none => rfl
    | some w => simpa using hle w hfl
  · unfold turn_flash_on
    rw [if_neg (by simp [strOptFalsy, String.isEmpty_iff, hfe])]
    cases hfl : flashWaitLoop fs 0 with
    | none => simp
    | some w =>
      have hw := not_lt.mpr (hle w hfl)
      simp [hw]

theorem C8_flash_error_branch_unreachable_witness :
    (Option.all (fun w => decide (w ≤ FLASH_DELAY_SECONDS))
      (flashWaitLoop (fun _ => some "off") 0) = true) ∧
    ((turn_flash_on (some "switch.flash") (fun _ => some "off") true).2
        = false ↔
      flashWaitLoop (fun _ => some "off") 0 = none) ∧
    captureAttempts
        (grab_image (some "camera.gauge") (some "switch.flash")
          (fun _ => some "off") (fun _ => none)).1 =
      [(1, GRAB_TIMEOUT), (2, GRAB_TIMEOUT), (3, GRAB_TIMEOUT)] :=
  C8_flash_error_branch_unreachable "switch.flash" "camera.gauge"
    (by decide) (fun _ => some "off") (fun _ => none)

/-! ## Claims about the sensor entity -/

/-- C6: a failed cycle — no image captured, or no usable measurement —
leaves the stored last measurement untouched, so the displayed native
value equals the prior cycle's; and in the initial state, before any
successful cycle, the displayed native value is `None`. -/
theorem C6_failed_cycle_keeps_state
    (s : SensorState) (image : Option Bytes)
    (measurement : Option GaugeMeasurement)
    (hfail : bytesFalsy image = true ∨ measurementFalsy measurement = true) :
    (async_update image measurement s).1 = s ∧
    native_value (async_update image measurement s).1 = native_value s ∧
    native_value { last_result := none } = none := by
  refine ⟨?_, ?_, rfl⟩ <;>
    (unfold async_update
     rcases hfail with h | h
     · rw [if_pos h]
     · by_cases hb : bytesFalsy image = true
       · rw [if_pos hb]
       · rw [if_neg hb, if_pos h])

/-- The half-full example measurement from the spec's property table. -/
def msrHalf : GaugeMeasurement where
  body_left := 100
  body_right := 200
  body_top := 100
  body_bottom := 500
  float_top := 300
  value := 1/2

/-- The same measurement with a float reading of exactly `0.0`. -/
def msrZero : GaugeMeasurement where
  body_left := 100
  body_right := 200
  body_top := 100
  body_bottom := 500
  float_top := 300
  value := 0

/-- A sensor that has already displayed one successful measurement. -/
def sensorWithHalf : SensorState where
  last_result := some msrHalf

theorem C6_failed_cycle_keeps_state_witness :
    (async_update none none sensorWithHalf).1 = sensorWithHalf ∧
    native_value (async_update none none sensorWithHalf).1 =
      native_value sensorWithHalf ∧
    native_value { last_result := none } = none :=
  C6_failed_cycle_keeps_state sensorWithHalf none none (Or.inl (by decide))

/-- C10: a measurement whose `value` is `0.0` is classified as a failed
cycle by `failed = not measurement or not measurement.value`: the stored
state is unchanged (the prior measurement stays displayed) and the
decorator is not invoked, so neither a snapshot nor a decorated image is
saved for the cycle. -/
theorem C10_zero_value_treated_as_failure
    (s : SensorState) (image : Option Bytes) (m : GaugeMeasurement)
    (hv : m.value = 0) :
    (async_update image (some m) s).1 = s ∧
    (async_update image (some m) s).2 = false := by
  unfold async_update
  by_cases hb : bytesFalsy image = true
  · rw [if_pos hb]
    exact ⟨rfl, rfl⟩
  · rw [if_neg hb, if_pos (by simp [measurementFalsy, hv])]
    exact ⟨rfl, rfl⟩

theorem C10_zero_value_treated_as_failure_witness :
    (async_update (some [5]) (some msrZero) sensorWithHalf).1 =
      sensorWithHalf ∧
    (async_update (some [5]) (some msrZero) sensorWithHalf).2 = false :=
  C10_zero_value_treated_as_failure sensorWithHalf (some [5]) msrZero rfl

/-! ## Claim about the decorator with a missing measurement (C2)

The claim says a `decorate_and_save` call with a configured output path
and `measurement = None` removes the pre-existing measure file, still
writes the snapshot, and completes without error.  The code removes the
file and writes the snapshot but does not complete: the `if image is None`
branch of `save_image` has no `return`, so control falls through to
`image.save(buffer, "JPEG")` on `None` and the call raises
`AttributeError` — contradicting `save_image`'s own docstring, which says
a `None` image "deletes the file instead". -/

/-- An output directory holding a previously annotated measure file. -/
def fsWithMeasureFile : FS := fun p =>
  if p = "/out/dev-measure.jpg" then some (FileData.raw [9]) else none

theorem C2_decorate_none_raises_attribute_error :
    (decorate_and_save (some "/out") "dev" [1, 2] none
        { min_perc := 1/10, max_perc := 1/5 } fsWithMeasureFile).2 =
      some PyError.attributeError ∧
    (decorate_and_save (some "/out") "dev" [1, 2] none
        { min_perc := 1/10, max_perc := 1/5 } fsWithMeasureFile).1
        "/out/dev-snapshot.jpg" = some (FileData.raw [1, 2]) ∧
    (decorate_and_save (some "/out") "dev" [1, 2] none
        { min_perc := 1/10, max_perc := 1/5 } fsWithMeasureFile).1
        "/out/dev-measure.jpg" = none ∧
    decorate_and_save none "dev" [1, 2] none
        { min_perc := 1/10, max_perc := 1/5 } fsWithMeasureFile =
      (fsWithMeasureFile, none) := by
  refine ⟨by decide, by decide, by decide, rfl⟩

end Indicam
